import Mathlib

/-!
Shallow embedding of the order-lifecycle core of the takeout backend
(`src/models.py`, `src/routers/orders.py`, `src/routers/dependencies.py`).

Machine integers are modelled as `Nat`/`Int`, catalog prices as `Rat`,
timestamps as `Int` (UTC instants, passed in as a `now` argument where the
code calls `datetime.now`).  Each SQLAlchemy table is a list of rows inside
a `DB` record; `autoincrement` primary keys are modelled by explicit
`next_*` counters.  A FastAPI handler that can raise `HTTPException`
becomes a function into `Except HTTPException α`; since the session commits
only on the success path, an error result carries no new database state
(the transaction is rolled back, so failed requests leave every row
unchanged).  Each distinct `detail` string in the source is one constructor
of `ErrDetail`; the invalid-transition message interpolates the current
status, the target status and the role of the caller, so that constructor
carries them as payload.
-/

namespace Takeout

/-- Role enum from `src/models.py` (`UserRole`). -/
inductive UserRole where
  | consumer
  | partner
  | courier
deriving DecidableEq, Fintype

/-- Status enum from `src/models.py` (`OrderStatus`). -/
inductive OrderStatus where
  | pending
  | accepted
  | ready_for_pickup
  | in_transit
  | delivered
  | cancelled
deriving DecidableEq, Fintype

namespace OrderStatus

/-- Embeds `OrderStatus.can_transition_to` from `src/models.py`: a
dictionary of permitted next statuses per role, defaulting to `[]`
(`valid_transitions.get(self, [])`), queried with membership. -/
def can_transition_to (s : OrderStatus) (new_status : OrderStatus) (role : UserRole) : Bool :=
  let valid_transitions : OrderStatus → List OrderStatus :=
    match role with
    | UserRole.consumer => fun cur =>
        match cur with
        | pending => [cancelled]
        | _ => []
    | UserRole.partner => fun cur =>
        match cur with
        | pending => [accepted, cancelled]
        | accepted => [ready_for_pickup, cancelled]
        | ready_for_pickup => [cancelled]
        | _ => []
    | UserRole.courier => fun cur =>
        match cur with
        | ready_for_pickup => [in_transit]
        | in_transit => [delivered]
        | _ => []
  (valid_transitions s).contains new_status

end OrderStatus

/-- Row of the `user` table (columns relevant to the order core). -/
structure User where
  id : Nat
  name : String
  email : String
  phone_number : String
  role : UserRole
deriving DecidableEq

/-- Row of the `merchant` table. -/
structure Merchant where
  id : Nat
  name : String
  description : Option String
  location : String
  partner_id : Nat
deriving DecidableEq

/-- Row of the `item` table; `price` is a FLOAT column, modelled as `Rat`. -/
structure Item where
  id : Nat
  name : String
  description : Option String
  price : Rat
  merchant_id : Nat
deriving DecidableEq

/-- Row of the `order_item` table.  `quantity` is a Python `int`, so `Int`. -/
structure OrderItem where
  id : Nat
  item_id : Nat
  quantity : Int
  order_id : Nat
deriving DecidableEq

/-- Row of the `order` table.  Note the table has no `total` column: the
total is a derived field computed by each handler, never persisted. -/
structure Order where
  id : Nat
  delivery_address : String
  order_instructions : Option String
  merchant_id : Nat
  consumer_id : Nat
  courier_id : Option Nat
  status : OrderStatus
  created_at : Int
  delivered_at : Option Int
deriving DecidableEq

/-- The persistent state: one list per table plus autoincrement counters. -/
structure DB where
  users : List User
  merchants : List Merchant
  items : List Item
  orders : List Order
  order_items : List OrderItem
  next_order_id : Nat
  next_order_item_id : Nat
deriving DecidableEq

/-- One constructor per distinct `HTTPException` detail string raised by the
order core.  `cannotTransition` carries the interpolated values of
`f"Cannot transition from {order.status} to {status_update.status} as
{current_user.role}"`. -/
inductive ErrDetail where
  | operationNotPermitted
  | orderNotFound
  | notYourOrder
  | orderNotAvailableForViewing
  | orderAlreadyAssigned
  | activeOrderInTransit
  | orderMustContainItem
  | quantitiesMustBePositive
  | itemsNotFoundOrDifferentMerchant
  | onlyPartnersCanAccess
  | merchantNotFound
  | noPermissionForMerchant
  | cannotTransition (current : OrderStatus) (target : OrderStatus) (role : UserRole)
deriving DecidableEq

/-- An `HTTPException(status_code=..., detail=...)` value. -/
structure HTTPException where
  status_code : Nat
  detail : ErrDetail
deriving DecidableEq

/-- Embeds `check_role` from `src/routers/dependencies.py`. -/
def check_role (allowed_roles : List UserRole) (user : User) : Except HTTPException User :=
  if user.role ∈ allowed_roles then Except.ok user
  else Except.error ⟨403, ErrDetail.operationNotPermitted⟩

/-- Embeds `check_merchant_owner` from `src/routers/dependencies.py`. -/
def check_merchant_owner (db : DB) (merchant_id : Nat) (user : User) :
    Except HTTPException Merchant :=
  if user.role ≠ UserRole.partner then
    Except.error ⟨403, ErrDetail.onlyPartnersCanAccess⟩
  else
    match db.merchants.find? (fun m => m.id == merchant_id) with
    | none => Except.error ⟨404, ErrDetail.merchantNotFound⟩
    | some merchant =>
        if merchant.partner_id ≠ user.id then
          Except.error ⟨403, ErrDetail.noPermissionForMerchant⟩
        else Except.ok merchant

/-- Python truthiness of the nullable integer column `order.courier_id`:
`None` and `0` are falsy. -/
def courier_truthy : Option Nat → Bool
  | none => false
  | some c => c != 0

/-- The guard `order.courier_id and order.courier_id != current_user.id`
from `update_order_status`. -/
def courier_assigned_mismatch (courier_id : Option Nat) (uid : Nat) : Bool :=
  courier_truthy courier_id && courier_id != some uid

/-- The `order_item` rows joined to one order (`order.items`). -/
def order_items_of (db : DB) (order_id : Nat) : List OrderItem :=
  db.order_items.filter (fun oi => oi.order_id == order_id)

/-- The catalog price of `order_item.item` (`item.item.price`); the FK
guarantees the item row exists, so the default is unreachable. -/
def item_price (db : DB) (item_id : Nat) : Rat :=
  match db.items.find? (fun it => it.id == item_id) with
  | some it => it.price
  | none => 0

/-- Embeds `sum(item.quantity * item.item.price for item in order.items)`,
the total computed by every read/list/create/update handler. -/
def order_total (db : DB) (order_id : Nat) : Rat :=
  ((order_items_of db order_id).map
    (fun oi => (oi.quantity : Rat) * item_price db oi.item_id)).sum

/-- The merchant row joined to an order (`order.merchant`). -/
def merchant_of (db : DB) (o : Order) : Option Merchant :=
  db.merchants.find? (fun m => m.id == o.merchant_id)

/-- User lookup by primary key. -/
def user_by_id (db : DB) (uid : Nat) : Option User :=
  db.users.find? (fun u => u.id == uid)

/-- The courier row joined to an order (`order.courier`); `None` when
`courier_id` is null. -/
def courier_of (db : DB) (o : Order) : Option User :=
  match o.courier_id with
  | none => none
  | some cid => user_by_id db cid

/-- The `OrderReadSchema` response, holding exactly the fields the order
handlers populate (names via joins, `total` computed, never stored). -/
structure OrderRead where
  id : Nat
  delivery_address : String
  order_instructions : Option String
  merchant_id : Nat
  merchant_name : String
  merchant_location : String
  consumer_id : Nat
  consumer_name : Option String
  courier_id : Option Nat
  courier_name : Option String
  status : OrderStatus
  created_at : Int
  delivered_at : Option Int
  items : List OrderItem
  total : Rat
deriving DecidableEq

/-- The response-enrichment tail shared by the order handlers: set
`merchant_name`/`merchant_location`, `consumer_name` where the handler sets
it (`with_consumer_name`), `courier_name` when `order.courier` is present,
and the computed `total`. -/
def build_order_read (db : DB) (o : Order) (with_consumer_name : Bool) : OrderRead :=
  { id := o.id
    delivery_address := o.delivery_address
    order_instructions := o.order_instructions
    merchant_id := o.merchant_id
    merchant_name := ((merchant_of db o).map Merchant.name).getD ""
    merchant_location := ((merchant_of db o).map Merchant.location).getD ""
    consumer_id := o.consumer_id
    consumer_name :=
      if with_consumer_name then (user_by_id db o.consumer_id).map User.name else none
    courier_id := o.courier_id
    courier_name := (courier_of db o).map User.name
    status := o.status
    created_at := o.created_at
    delivered_at := o.delivered_at
    items := order_items_of db o.id
    total := order_total db o.id }

/-- Embeds `GET /api/orders` (`list_orders` in `src/routers/orders.py`):
consumers see their own orders, couriers see the READY_FOR_PICKUP pool plus
IN_TRANSIT/DELIVERED orders assigned to them. -/
def list_orders (db : DB) (current_user : User) : Except HTTPException (List OrderRead) :=
  match check_role [UserRole.consumer, UserRole.courier] current_user with
  | Except.error e => Except.error e
  | Except.ok _ =>
    let orders :=
      if current_user.role = UserRole.consumer then
        db.orders.filter (fun o => o.consumer_id == current_user.id)
      else if current_user.role = UserRole.courier then
        db.orders.filter (fun o =>
          (o.status == OrderStatus.ready_for_pickup)
          || (([OrderStatus.in_transit, OrderStatus.delivered].contains o.status)
              && (o.courier_id == some current_user.id)))
      else db.orders
    Except.ok (orders.map (fun o => build_order_read db o false))

/-- Embeds `GET /api/orders/{order_id}` (`get_order`): 404 when absent,
then the role-scoped visibility checks, then enrichment. -/
def get_order (db : DB) (order_id : Nat) (current_user : User) :
    Except HTTPException OrderRead :=
  match check_role [UserRole.consumer, UserRole.courier] current_user with
  | Except.error e => Except.error e
  | Except.ok _ =>
    match db.orders.find? (fun o => o.id == order_id) with
    | none => Except.error ⟨404, ErrDetail.orderNotFound⟩
    | some order =>
      if current_user.role = UserRole.consumer then
        if order.consumer_id ≠ current_user.id then
          Except.error ⟨403, ErrDetail.notYourOrder⟩
        else Except.ok (build_order_read db order true)
      else if current_user.role = UserRole.courier then
        if order.status = OrderStatus.ready_for_pickup then
          Except.ok (build_order_read db order true)
        else if [OrderStatus.in_transit, OrderStatus.delivered].contains order.status then
          if order.courier_id ≠ some current_user.id then
            Except.error ⟨403, ErrDetail.orderNotAvailableForViewing⟩
          else Except.ok (build_order_read db order true)
        else Except.error ⟨403, ErrDetail.orderNotAvailableForViewing⟩
      else Except.ok (build_order_read db order true)

/-- Body of `POST /api/merchants/{merchant_id}/orders` (`OrderCreateSchema`). -/
structure OrderItemCreate where
  item_id : Nat
  quantity : Int
deriving DecidableEq

/-- Order-creation request body. -/
structure OrderCreate where
  delivery_address : String
  order_instructions : Option String
  items : List OrderItemCreate
deriving DecidableEq

/-- The `for item_data in order.items: session.add(OrderItem(...))` loop:
one `order_item` row per requested pair, ids from the autoincrement
counter. -/
def mk_order_items (next_id : Nat) (oid : Nat) : List OrderItemCreate → List OrderItem
  | [] => []
  | i :: rest =>
      { id := next_id, item_id := i.item_id, quantity := i.quantity, order_id := oid }
        :: mk_order_items (next_id + 1) oid rest

/-- The row inserted by `create_order`: `Order(**order.dict(exclude=
{"items"}), merchant_id=..., consumer_id=..., status=PENDING)`, with the
column defaults `courier_id = NULL`, `created_at = now(UTC)`,
`delivered_at = NULL` and the next autoincrement id. -/
def db_order_row (db : DB) (merchant_id : Nat) (order : OrderCreate) (current_user : User)
    (now : Int) : Order :=
  { id := db.next_order_id
    delivery_address := order.delivery_address
    order_instructions := order.order_instructions
    merchant_id := merchant_id
    consumer_id := current_user.id
    courier_id := none
    status := OrderStatus.pending
    created_at := now
    delivered_at := none }

/-- Embeds `POST /api/merchants/{merchant_id}/orders` (`create_order`):
rejects an empty item list, non-positive quantities, and a resolved-item
count different from the requested count; otherwise inserts the order and
its items and returns the enriched response. -/
def create_order (db : DB) (merchant_id : Nat) (order : OrderCreate) (current_user : User)
    (now : Int) : Except HTTPException (DB × OrderRead) :=
  match check_role [UserRole.consumer] current_user with
  | Except.error e => Except.error e
  | Except.ok _ =>
    if order.items = [] then
      Except.error ⟨400, ErrDetail.orderMustContainItem⟩
    else if order.items.any (fun item => item.quantity ≤ 0) then
      Except.error ⟨400, ErrDetail.quantitiesMustBePositive⟩
    else
      let item_ids := order.items.map OrderItemCreate.item_id
      let items := db.items.filter
        (fun it => item_ids.contains it.id && it.merchant_id == merchant_id)
      if items.length ≠ item_ids.length then
        Except.error ⟨400, ErrDetail.itemsNotFoundOrDifferentMerchant⟩
      else
        let db_order : Order := db_order_row db merchant_id order current_user now
        let new_items := mk_order_items db.next_order_item_id db_order.id order.items
        let db' : DB :=
          { db with
            orders := db.orders ++ [db_order]
            order_items := db.order_items ++ new_items
            next_order_id := db.next_order_id + 1
            next_order_item_id := db.next_order_item_id + order.items.length }
        Except.ok (db', build_order_read db' db_order false)

/-- The role-specific guards of `PATCH /api/merchants/{mid}/orders/{oid}`
(`update_order_status`), run after the order is fetched and before the
transition check: consumers must own the order, partners must own the
merchant, couriers must not touch an order assigned to another courier and
must hold no IN_TRANSIT order when requesting IN_TRANSIT. -/
def role_pre_check (db : DB) (merchant_id : Nat) (order : Order) (status_update : OrderStatus)
    (current_user : User) : Except HTTPException Unit :=
  if current_user.role = UserRole.consumer then
    if order.consumer_id ≠ current_user.id then
      Except.error ⟨403, ErrDetail.notYourOrder⟩
    else Except.ok ()
  else if current_user.role = UserRole.partner then
    match check_merchant_owner db merchant_id current_user with
    | Except.error e => Except.error e
    | Except.ok _ => Except.ok ()
  else if current_user.role = UserRole.courier then
    if courier_assigned_mismatch order.courier_id current_user.id then
      Except.error ⟨403, ErrDetail.orderAlreadyAssigned⟩
    else if status_update = OrderStatus.in_transit then
      if (db.orders.filter (fun o =>
            (o.courier_id == some current_user.id)
            && (o.status == OrderStatus.in_transit))) ≠ [] then
        Except.error ⟨400, ErrDetail.activeOrderInTransit⟩
      else Except.ok ()
    else Except.ok ()
  else Except.ok ()

/-- The courier-only writes after `order.status = status_update`: set
`courier_id` on IN_TRANSIT when it is falsy (`not order.courier_id`), or
stamp `delivered_at` on DELIVERED (an `elif`, so never both). -/
def courier_touch (order1 : Order) (status_update : OrderStatus) (current_user : User)
    (now : Int) : Order :=
  if current_user.role = UserRole.courier then
    if status_update = OrderStatus.in_transit ∧ courier_truthy order1.courier_id = false then
      { order1 with courier_id := some current_user.id }
    else if status_update = OrderStatus.delivered then
      { order1 with delivered_at := some now }
    else order1
  else order1

/-- The mutation tail of `update_order_status`: validate against
`can_transition_to` (rejecting with the interpolated message), set the
status, apply the courier-only writes, and commit. -/
def apply_transition (db : DB) (order : Order) (status_update : OrderStatus)
    (current_user : User) (now : Int) : Except HTTPException (DB × OrderRead) :=
  if order.status.can_transition_to status_update current_user.role = false then
    Except.error ⟨400, ErrDetail.cannotTransition order.status status_update current_user.role⟩
  else
    let order2 : Order :=
      courier_touch { order with status := status_update } status_update current_user now
    let db' : DB :=
      { db with orders := db.orders.map (fun o => if o.id == order.id then order2 else o) }
    Except.ok (db', build_order_read db' order2 false)

/-- Embeds `PATCH /api/merchants/{merchant_id}/orders/{order_id}`
(`update_order_status`): fetch by id and merchant, run the role guards,
then validate and apply the transition. -/
def update_order_status (db : DB) (merchant_id : Nat) (order_id : Nat)
    (status_update : OrderStatus) (current_user : User) (now : Int) :
    Except HTTPException (DB × OrderRead) :=
  match check_role [UserRole.consumer, UserRole.partner, UserRole.courier] current_user with
  | Except.error e => Except.error e
  | Except.ok _ =>
    match db.orders.find? (fun o => o.id == order_id && o.merchant_id == merchant_id) with
    | none => Except.error ⟨404, ErrDetail.orderNotFound⟩
    | some order =>
      match role_pre_check db merchant_id order status_update current_user with
      | Except.error e => Except.error e
      | Except.ok _ => apply_transition db order status_update current_user now

/-- The transition table of spec section 4.2, transcribed row by row from
the wording of the spec, to be compared with `OrderStatus.can_transition_to`. -/
def spec_transition_table (role : UserRole) (current : OrderStatus) (target : OrderStatus) :
    Bool :=
  match role, current, target with
  | UserRole.consumer, OrderStatus.pending, OrderStatus.cancelled => true
  | UserRole.partner, OrderStatus.pending, OrderStatus.accepted => true
  | UserRole.partner, OrderStatus.pending, OrderStatus.cancelled => true
  | UserRole.partner, OrderStatus.accepted, OrderStatus.ready_for_pickup => true
  | UserRole.partner, OrderStatus.accepted, OrderStatus.cancelled => true
  | UserRole.partner, OrderStatus.ready_for_pickup, OrderStatus.cancelled => true
  | UserRole.courier, OrderStatus.ready_for_pickup, OrderStatus.in_transit => true
  | UserRole.courier, OrderStatus.in_transit, OrderStatus.delivered => true
  | _, _, _ => false

/-- Success test for the `Except`-valued handlers. -/
def is_ok {ε α : Type} : Except ε α → Bool := fun r =>
  match r with
  | Except.ok _ => true
  | Except.error _ => false

/-- Keeps only the part of an order state that the delivered_at claims
track: delivered_at is null away from DELIVERED, and once set it is at
least the creation instant. -/
def DeliveredInv (o : Order) : Prop :=
  (o.status ≠ OrderStatus.delivered → o.delivered_at = none)
  ∧ (∀ t, o.delivered_at = some t → o.created_at ≤ t)

/-! Concrete fixture rows used by the witness and counterexample theorems. -/

/-- Fixture consumer. -/
def user_con : User := ⟨1, "alice", "alice@example.com", "555-0001", UserRole.consumer⟩

/-- Fixture partner, owner of `merchant1`. -/
def user_par : User := ⟨5, "pat", "pat@example.com", "555-0005", UserRole.partner⟩

/-- Fixture courier. -/
def user_cour : User := ⟨10, "carl", "carl@example.com", "555-0010", UserRole.courier⟩

/-- Second fixture courier. -/
def user_cour2 : User := ⟨11, "dana", "dana@example.com", "555-0011", UserRole.courier⟩

/-- Fixture merchant owned by `user_par`. -/
def merchant1 : Merchant := ⟨1, "pizza place", none, "main st", 5⟩

/-- Fixture catalog item priced 2.50. -/
def item1 : Item := ⟨1, "slice", none, 5 / 2, 1⟩

/-- Fixture catalog item priced 1.00. -/
def item2 : Item := ⟨2, "soda", none, 1, 1⟩

/-- Fixture order for the C1 witness: pending, owned by `user_con`. -/
def order_c1 : Order := ⟨1, "12 oak st", none, 1, 1, none, OrderStatus.pending, 0, none⟩

/-- Fixture database for the C1 witness. -/
def db_c1 : DB := ⟨[user_con], [merchant1], [item1], [order_c1], [], 2, 1⟩

/-- Order held in transit by `user_cour` (id 10). -/
def order_a : Order := ⟨1, "12 oak st", none, 1, 1, some 10, OrderStatus.in_transit, 0, none⟩

/-- Order held in transit by `user_cour2` (id 11). -/
def order_b : Order := ⟨2, "9 elm st", none, 1, 1, some 11, OrderStatus.in_transit, 0, none⟩

/-- Database for the C2 counterexample: courier 10 holds `order_a`,
courier 11 holds `order_b`. -/
def db_c2 : DB := ⟨[user_con, user_cour, user_cour2], [merchant1], [item1], [order_a, order_b], [], 3, 1⟩

/-- Unassigned pickup-pool order. -/
def order_ready : Order := ⟨2, "9 elm st", none, 1, 1, none, OrderStatus.ready_for_pickup, 0, none⟩

/-- Database for the amended-C2 witness: courier 10 holds `order_a`,
`order_ready` sits in the pool. -/
def db_c2w : DB := ⟨[user_con, user_cour], [merchant1], [item1], [order_a, order_ready], [], 3, 1⟩

/-- Single pool order for the C3/C6 witnesses. -/
def order_c3 : Order := ⟨1, "12 oak st", none, 1, 1, none, OrderStatus.ready_for_pickup, 0, none⟩

/-- Database for the C3 witness. -/
def db_c3 : DB := ⟨[user_con, user_cour], [merchant1], [item1], [order_c3], [], 2, 1⟩

/-- The order produced by the C3 witness pickup. -/
def order_c3' : Order := { order_c3 with status := OrderStatus.in_transit, courier_id := some 10 }

/-- The database after the C3 witness pickup. -/
def db_c3' : DB := { db_c3 with orders := [order_c3'] }

/-- The response of the C3 witness pickup. -/
def resp_c3 : OrderRead := build_order_read db_c3' order_c3' false

/-- Database for the C4 counterexample: one merchant with one item. -/
def db_c4 : DB := ⟨[user_con], [merchant1], [item1], [], [], 1, 1⟩

/-- Creation request naming item 1 twice (both quantities positive). -/
def req_dup : OrderCreate := ⟨"12 oak st", none, [⟨1, 1⟩, ⟨1, 2⟩]⟩

/-- Creation request naming the valid item 1 and the unknown item 9. -/
def req_missing : OrderCreate := ⟨"12 oak st", none, [⟨1, 1⟩, ⟨9, 1⟩]⟩

/-- An already-delivered order held by courier 10. -/
def order_dlv : Order := ⟨1, "12 oak st", none, 1, 1, some 10, OrderStatus.delivered, 0, some 5⟩

/-- Database for the C7 witness. -/
def db_c7 : DB := ⟨[user_con, user_cour], [merchant1], [item1], [order_dlv], [], 2, 1⟩

/-- Empty shop database for the C8 witness. -/
def db_c8 : DB := ⟨[user_con, user_par], [merchant1], [item1, item2], [], [], 1, 1⟩

/-- Creation request for the C8 witness: two slices and three sodas. -/
def req_c8 : OrderCreate := ⟨"12 oak st", none, [⟨1, 2⟩, ⟨2, 3⟩]⟩

/-- The database after the C8 witness creation. -/
def db_c8' : DB :=
  { db_c8 with
    orders := [db_order_row db_c8 1 req_c8 user_con 0]
    order_items := mk_order_items 1 1 req_c8.items
    next_order_id := 2
    next_order_item_id := 3 }

/-- The response of the C8 witness creation. -/
def resp_c8 : OrderRead := build_order_read db_c8' (db_order_row db_c8 1 req_c8 user_con 0) false

/-- Database for the C9 example and witness: `order_c1` with line items
(item 1 priced 2.50, qty 2) and (item 2 priced 1.00, qty 3). -/
def db_c9 : DB :=
  ⟨[user_con], [merchant1], [item1, item2], [order_c1], [⟨1, 1, 2, 1⟩, ⟨2, 2, 3, 1⟩], 2, 3⟩

/-- The response of the C9 witness fetch. -/
def resp_c9 : OrderRead := build_order_read db_c9 order_c1 true

/-! Helper lemmas. -/

theorem check_role_of_mem {u : User} {rs : List UserRole} (h : u.role ∈ rs) :
    check_role rs u = Except.ok u := by
  simp [check_role, h]

theorem check_role_all (u : User) :
    check_role [UserRole.consumer, UserRole.partner, UserRole.courier] u = Except.ok u := by
  apply check_role_of_mem
  cases hu : u.role <;> simp [hu]

theorem check_role_cc {u : User} (h : u.role = UserRole.consumer ∨ u.role = UserRole.courier) :
    check_role [UserRole.consumer, UserRole.courier] u = Except.ok u := by
  apply check_role_of_mem
  rcases h with h | h <;> simp [h]

theorem mismatch_true {cid : Option Nat} {uid k : Nat}
    (h : cid = some k) (h0 : k ≠ 0) (hne : k ≠ uid) :
    courier_assigned_mismatch cid uid = true := by
  simp [courier_assigned_mismatch, courier_truthy, h, h0, hne]

theorem upd_assigned_403 {db : DB} {mid oid : Nat} {tgt : OrderStatus} {u : User} {now : Int}
    {order : Order}
    (hrole : u.role = UserRole.courier)
    (hfind : db.orders.find? (fun o => o.id == oid && o.merchant_id == mid) = some order)
    (hmis : courier_assigned_mismatch order.courier_id u.id = true) :
    update_order_status db mid oid tgt u now =
      Except.error ⟨403, ErrDetail.orderAlreadyAssigned⟩ := by
  simp [update_order_status, check_role_all, hfind, role_pre_check, hrole, hmis]

/-- C1: `can_transition_to` agrees with the transition table of spec
section 4.2 on every role and status pair; same-state transitions are
always rejected; and when the role-specific pre-checks pass but the table
forbids the transition, `update_order_status` fails with the 400 error
carrying the current status, the target status and the caller role. -/
theorem claim_C1_transition_table :
    (∀ s t : OrderStatus, ∀ r : UserRole,
        OrderStatus.can_transition_to s t r = spec_transition_table r s t)
    ∧ (∀ s : OrderStatus, ∀ r : UserRole, OrderStatus.can_transition_to s s r = false)
    ∧ (∀ (db : DB) (mid oid : Nat) (tgt : OrderStatus) (u : User) (now : Int) (order : Order),
        db.orders.find? (fun o => o.id == oid && o.merchant_id == mid) = some order →
        role_pre_check db mid order tgt u = Except.ok () →
        order.status.can_transition_to tgt u.role = false →
        update_order_status db mid oid tgt u now =
          Except.error ⟨400, ErrDetail.cannotTransition order.status tgt u.role⟩) := by
  refine ⟨by decide, by decide, ?_⟩
  intro db mid oid tgt u now order hfind hpre hcan
  simp [update_order_status, check_role_all, hfind, hpre, apply_transition, hcan]

/-- Witness for C1: a same-state transition request by the owning
consumer is rejected with the error naming (PENDING, PENDING, CONSUMER). -/
theorem claim_C1_witness :
    update_order_status db_c1 1 1 OrderStatus.pending user_con 0 =
      Except.error
        ⟨400, ErrDetail.cannotTransition OrderStatus.pending OrderStatus.pending
          UserRole.consumer⟩ :=
  claim_C1_transition_table.2.2 db_c1 1 1 OrderStatus.pending user_con 0 order_c1
    rfl rfl rfl

/-- C10: a courier can never mutate an order whose `courier_id` is set to a
different courier: for every requested target status, the request fails
with 403 "already assigned to another courier" (on error nothing is
committed, so the order is unchanged). -/
theorem claim_C10_assigned_courier_403 :
    ∀ (db : DB) (mid oid : Nat) (tgt : OrderStatus) (u : User) (now : Int)
      (order : Order) (k : Nat),
      u.role = UserRole.courier →
      db.orders.find? (fun o => o.id == oid && o.merchant_id == mid) = some order →
      order.courier_id = some k → k ≠ 0 → k ≠ u.id →
      update_order_status db mid oid tgt u now =
        Except.error ⟨403, ErrDetail.orderAlreadyAssigned⟩ := by
  intro db mid oid tgt u now order k hrole hfind hcid h0 hne
  exact upd_assigned_403 hrole hfind (mismatch_true hcid h0 hne)

/-- Witness for C10: courier 10 cannot move `order_b` (assigned to courier
11) to DELIVERED. -/
theorem claim_C10_witness :
    update_order_status db_c2 1 2 OrderStatus.delivered user_cour 0 =
      Except.error ⟨403, ErrDetail.orderAlreadyAssigned⟩ :=
  claim_C10_assigned_courier_403 db_c2 1 2 OrderStatus.delivered user_cour 0 order_b 11
    rfl rfl rfl (by decide) (by decide)

theorem cmo_error_detail {db : DB} {mid : Nat} {u : User} {e : HTTPException}
    (h : check_merchant_owner db mid u = Except.error e) :
    e.detail = ErrDetail.onlyPartnersCanAccess ∨ e.detail = ErrDetail.merchantNotFound ∨
      e.detail = ErrDetail.noPermissionForMerchant := by
  unfold check_merchant_owner at h
  split at h
  · cases h; simp
  · split at h
    · cases h; simp
    · split at h
      · cases h; simp
      · cases h

theorem pre_check_conflict_only_in_transit {db : DB} {mid : Nat} {order : Order}
    {tgt : OrderStatus} {u : User} {e : HTTPException}
    (h : role_pre_check db mid order tgt u = Except.error e)
    (hd : e.detail = ErrDetail.activeOrderInTransit) : tgt = OrderStatus.in_transit := by
  unfold role_pre_check at h
  split at h
  · split at h
    · cases h; simp at hd
    · cases h
  · split at h
    · split at h
      · rename_i e1 heq
        cases h
        rcases cmo_error_detail heq with h1 | h1 | h1 <;> simp [h1] at hd
      · cases h
    · split at h
      · split at h
        · cases h; simp at hd
        · split at h
          · split at h
            · rename_i htgt _
              exact htgt
            · cases h
          · cases h
      · cases h

theorem apply_transition_error {db : DB} {order : Order} {tgt : OrderStatus} {u : User}
    {now : Int} {e : HTTPException}
    (h : apply_transition db order tgt u now = Except.error e) :
    e = ⟨400, ErrDetail.cannotTransition order.status tgt u.role⟩ := by
  unfold apply_transition at h
  split at h
  · cases h; rfl
  · simp at h

theorem upd_conflict_only_in_transit {db : DB} {mid oid : Nat} {tgt : OrderStatus}
    {u : User} {now : Int} {e : HTTPException}
    (hne : tgt ≠ OrderStatus.in_transit)
    (h : update_order_status db mid oid tgt u now = Except.error e) :
    e.detail ≠ ErrDetail.activeOrderInTransit := by
  intro hd
  unfold update_order_status at h
  cases hfind : db.orders.find? (fun o => o.id == oid && o.merchant_id == mid) with
  | none =>
      simp only [check_role_all, hfind] at h
      cases h
      simp at hd
  | some order =>
      simp only [check_role_all, hfind] at h
      cases hpre : role_pre_check db mid order tgt u with
      | error e1 =>
          simp only [hpre] at h
          cases h
          exact hne (pre_check_conflict_only_in_transit hpre hd)
      | ok _ =>
          simp only [hpre] at h
          have he := apply_transition_error h
          subst he
          simp at hd

/-- Counterexample to C2 as stated: courier 10 holds `order_a` IN_TRANSIT,
yet the attempt on `order_b` (a different order, assigned to courier 11)
fails with 403 "already assigned", not with the 400 conflict error: the
assigned-to-another-courier guard runs before the exclusivity guard. -/
theorem claim_C2_counterexample :
    (db_c2.orders.filter (fun o =>
        (o.courier_id == some user_cour.id) && (o.status == OrderStatus.in_transit))) ≠ []
    ∧ order_b.id ≠ order_a.id
    ∧ update_order_status db_c2 1 2 OrderStatus.in_transit user_cour 0 =
        Except.error ⟨403, ErrDetail.orderAlreadyAssigned⟩
    ∧ (403 : Nat) ≠ 400
    ∧ ErrDetail.orderAlreadyAssigned ≠ ErrDetail.activeOrderInTransit :=
  ⟨by decide, by decide, rfl, by decide, by decide⟩

/-- C2 amended: for a courier holding an IN_TRANSIT order, an attempt to
move another order to IN_TRANSIT fails with the 400 conflict error provided
that order is not assigned to a different courier; if it is so assigned the
attempt fails with 403 instead; and the exclusivity check runs only when
the requested target is IN_TRANSIT (no other target can produce the
conflict error).  On error nothing is committed, so the target order is
unchanged. -/
theorem claim_C2_amended_exclusivity :
    (∀ (db : DB) (mid oid : Nat) (u : User) (now : Int) (order : Order),
        u.role = UserRole.courier →
        db.orders.find? (fun o => o.id == oid && o.merchant_id == mid) = some order →
        courier_assigned_mismatch order.courier_id u.id = false →
        (∃ a ∈ db.orders, a.courier_id = some u.id ∧ a.status = OrderStatus.in_transit) →
        update_order_status db mid oid OrderStatus.in_transit u now =
          Except.error ⟨400, ErrDetail.activeOrderInTransit⟩)
    ∧ (∀ (db : DB) (mid oid : Nat) (u : User) (now : Int) (order : Order) (k : Nat),
        u.role = UserRole.courier →
        db.orders.find? (fun o => o.id == oid && o.merchant_id == mid) = some order →
        order.courier_id = some k → k ≠ 0 → k ≠ u.id →
        update_order_status db mid oid OrderStatus.in_transit u now =
          Except.error ⟨403, ErrDetail.orderAlreadyAssigned⟩)
    ∧ (∀ (db : DB) (mid oid : Nat) (tgt : OrderStatus) (u : User) (now : Int)
        (e : HTTPException),
        tgt ≠ OrderStatus.in_transit →
        update_order_status db mid oid tgt u now = Except.error e →
        e.detail ≠ ErrDetail.activeOrderInTransit) := by
  refine ⟨?_, ?_, ?_⟩
  · intro db mid oid u now order hrole hfind hmis hex
    have hfil : (db.orders.filter (fun o =>
        (o.courier_id == some u.id) && (o.status == OrderStatus.in_transit))) ≠ [] := by
      rcases hex with ⟨a, ha, hc, hs⟩
      exact List.ne_nil_of_mem (List.mem_filter.mpr ⟨ha, by simp [hc, hs]⟩)
    simp [update_order_status, check_role_all, hfind, role_pre_check, hrole, hmis, hfil]
  · intro db mid oid u now order k hrole hfind hcid h0 hne
    exact upd_assigned_403 hrole hfind (mismatch_true hcid h0 hne)
  · intro db mid oid tgt u now e hne h
    exact upd_conflict_only_in_transit hne h

/-- Witness for the amended C2: courier 10 holds `order_a`, so picking up
the unassigned `order_ready` is rejected with the conflict error. -/
theorem claim_C2_witness :
    update_order_status db_c2w 1 2 OrderStatus.in_transit user_cour 0 =
      Except.error ⟨400, ErrDetail.activeOrderInTransit⟩ :=
  claim_C2_amended_exclusivity.1 db_c2w 1 2 user_cour 0 order_ready rfl rfl rfl
    ⟨order_a, by decide, rfl, rfl⟩

theorem upd_ok_shape {db : DB} {mid oid : Nat} {tgt : OrderStatus} {u : User} {now : Int}
    {db' : DB} {resp : OrderRead} {order : Order}
    (hfind : db.orders.find? (fun o => o.id == oid && o.merchant_id == mid) = some order)
    (h : update_order_status db mid oid tgt u now = Except.ok (db', resp)) :
    order.status.can_transition_to tgt u.role = true ∧
    role_pre_check db mid order tgt u = Except.ok () ∧
    db' = { db with orders := db.orders.map (fun o =>
        if o.id == order.id then courier_touch { order with status := tgt } tgt u now
        else o) } ∧
    resp = build_order_read db' (courier_touch { order with status := tgt } tgt u now) false := by
  unfold update_order_status at h
  simp only [check_role_all, hfind] at h
  cases hpre : role_pre_check db mid order tgt u with
  | error e1 =>
      simp only [hpre] at h
      exact absurd h (by simp)
  | ok a =>
      cases a
      simp only [hpre] at h
      unfold apply_transition at h
      split at h
      · exact absurd h (by simp)
      · rename_i hcan
        have hcan' : order.status.can_transition_to tgt u.role = true := by
          revert hcan
          cases order.status.can_transition_to tgt u.role <;> simp
        injection h with hpair
        cases hpair
        exact ⟨hcan', rfl, rfl, rfl⟩

theorem pre_check_ok_courier {db : DB} {mid : Nat} {order : Order} {tgt : OrderStatus}
    {u : User}
    (hrole : u.role = UserRole.courier)
    (h : role_pre_check db mid order tgt u = Except.ok ()) :
    courier_assigned_mismatch order.courier_id u.id = false := by
  cases hmis : courier_assigned_mismatch order.courier_id u.id with
  | false => rfl
  | true =>
      exfalso
      unfold role_pre_check at h
      rw [hrole] at h
      simp [hmis] at h

theorem courier_touch_in_transit_id {order : Order} {u : User} {now : Int}
    (hrole : u.role = UserRole.courier)
    (hok : courier_assigned_mismatch order.courier_id u.id = false) :
    (courier_touch { order with status := OrderStatus.in_transit } OrderStatus.in_transit
        u now).courier_id = some u.id := by
  cases hc : order.courier_id with
  | none => simp [courier_touch, hrole, courier_truthy, hc]
  | some k =>
      rw [courier_assigned_mismatch, hc] at hok
      by_cases hk : k = 0
      · simp [courier_touch, hrole, courier_truthy, hc, hk]
      · have hkey : k = u.id := by
          simp [courier_truthy, hk] at hok
          exact hok
        subst hkey
        by_cases hz : u.id = 0 <;> simp [courier_touch, hrole, courier_truthy, hc, hz]

/-- C3: a courier IN_TRANSIT request on an order assigned to a different
courier fails with 403 and commits nothing; and every successful courier
IN_TRANSIT transition leaves the caller as the courier of the order — setting
`courier_id` when it was unset (first to accept wins) and keeping it when
it already equalled the caller — both in the response and in the stored
row. -/
theorem claim_C3_courier_first_accept :
    (∀ (db : DB) (mid oid : Nat) (u : User) (now : Int) (order : Order) (k : Nat),
        u.role = UserRole.courier →
        db.orders.find? (fun o => o.id == oid && o.merchant_id == mid) = some order →
        order.courier_id = some k → k ≠ 0 → k ≠ u.id →
        update_order_status db mid oid OrderStatus.in_transit u now =
          Except.error ⟨403, ErrDetail.orderAlreadyAssigned⟩)
    ∧ (∀ (db : DB) (mid oid : Nat) (u : User) (now : Int) (order : Order) (db' : DB)
        (resp : OrderRead),
        u.role = UserRole.courier →
        db.orders.find? (fun o => o.id == oid && o.merchant_id == mid) = some order →
        update_order_status db mid oid OrderStatus.in_transit u now =
          Except.ok (db', resp) →
        resp.courier_id = some u.id ∧
        (∀ o' ∈ db'.orders, o'.id = order.id → o'.courier_id = some u.id)) := by
  constructor
  · intro db mid oid u now order k hrole hfind hcid h0 hne
    exact upd_assigned_403 hrole hfind (mismatch_true hcid h0 hne)
  · intro db mid oid u now order db' resp hrole hfind hup
    obtain ⟨hcan, hpre, hdb, hresp⟩ := upd_ok_shape hfind hup
    have hmis := pre_check_ok_courier hrole hpre
    have hid := @courier_touch_in_transit_id order u now hrole hmis
    constructor
    · rw [hresp, build_order_read]
      exact hid
    · intro o' ho' hoid
      rw [hdb] at ho'
      simp only [List.mem_map] at ho'
      rcases ho' with ⟨o0, ho0, heq⟩
      by_cases hbeq : o0.id = order.id
      · rw [if_pos (by simpa using hbeq)] at heq
        rw [← heq]
        exact hid
      · rw [if_neg (by simpa using hbeq)] at heq
        rw [← heq] at hoid
        exact absurd hoid hbeq

/-- Witness for C3: courier 10 picks up the unassigned `order_c3`; the
response carries `courier_id = 10`. -/
theorem claim_C3_witness : resp_c3.courier_id = some user_cour.id :=
  (claim_C3_courier_first_accept.2 db_c3 1 1 user_cour 0 order_c3 db_c3' resp_c3
    rfl rfl rfl).1

theorem create_resolution_iff {db : DB} {mid : Nat} {req : OrderCreate} {u : User}
    {now : Int}
    (hrole : u.role = UserRole.consumer)
    (hne : req.items ≠ [])
    (hq : req.items.any (fun item => item.quantity ≤ 0) = false) :
    create_order db mid req u now =
        Except.error ⟨400, ErrDetail.itemsNotFoundOrDifferentMerchant⟩
      ↔ (db.items.filter (fun it =>
            (req.items.map OrderItemCreate.item_id).contains it.id
            && it.merchant_id == mid)).length
          ≠ (req.items.map OrderItemCreate.item_id).length := by
  have hcr : check_role [UserRole.consumer] u = Except.ok u :=
    check_role_of_mem (by simp [hrole])
  unfold create_order
  simp only [hcr]
  rw [if_neg hne, if_neg (by simp [hq])]
  by_cases hlen : (db.items.filter (fun it =>
      (req.items.map OrderItemCreate.item_id).contains it.id
      && it.merchant_id == mid)).length
      ≠ (req.items.map OrderItemCreate.item_id).length
  · rw [if_pos hlen]
    exact ⟨fun _ => hlen, fun _ => rfl⟩
  · rw [if_neg hlen]
    exact ⟨fun h => absurd h (by simp), fun h => absurd h hlen⟩

theorem create_missing_item_fails {db : DB} {mid : Nat} {req : OrderCreate} {u : User}
    {now : Int}
    (hrole : u.role = UserRole.consumer)
    (hne : req.items ≠ [])
    (hq : req.items.any (fun item => item.quantity ≤ 0) = false)
    (hpk : (db.items.map Item.id).Nodup)
    (hmiss : ∃ i ∈ req.items, ∀ it ∈ db.items, ¬(it.id = i.item_id ∧ it.merchant_id = mid)) :
    create_order db mid req u now =
      Except.error ⟨400, ErrDetail.itemsNotFoundOrDifferentMerchant⟩ := by
  rcases hmiss with ⟨i, hi, hnores⟩
  set ids := req.items.map OrderItemCreate.item_id with hids
  set S := db.items.filter (fun it => ids.contains it.id && it.merchant_id == mid) with hS
  have hid0 : i.item_id ∈ ids := List.mem_map_of_mem OrderItemCreate.item_id hi
  have hSprops : ∀ x ∈ S.map Item.id, x ∈ ids ∧ x ≠ i.item_id := by
    intro x hx
    rcases List.mem_map.mp hx with ⟨it, hit, hxid⟩
    have hitfil := List.mem_filter.mp hit
    have hboth := hitfil.2
    rw [Bool.and_eq_true] at hboth
    rcases hboth with ⟨hcont, hmer⟩
    have hmem : it.id ∈ ids := by simpa using hcont
    constructor
    · rw [← hxid]; exact hmem
    · rw [← hxid]
      intro hxeq
      exact hnores it hitfil.1 ⟨hxeq, by simpa using hmer⟩
  have hnodupS : (S.map Item.id).Nodup :=
    ((List.filter_sublist db.items).map Item.id).nodup hpk
  have hsub : (S.map Item.id).toFinset ⊆ ids.toFinset.erase i.item_id := by
    intro x hx
    have hx' := List.mem_toFinset.mp hx
    rcases hSprops x hx' with ⟨hx1, hx2⟩
    exact Finset.mem_erase.mpr ⟨hx2, List.mem_toFinset.mpr hx1⟩
  have hlen : S.length < ids.length := by
    have h1 : S.length = (S.map Item.id).toFinset.card := by
      rw [List.toFinset_card_of_nodup hnodupS, List.length_map]
    have h2 : (S.map Item.id).toFinset.card ≤ (ids.toFinset.erase i.item_id).card :=
      Finset.card_le_card hsub
    have h3 : (ids.toFinset.erase i.item_id).card < ids.toFinset.card :=
      Finset.card_erase_lt_of_mem (List.mem_toFinset.mpr hid0)
    have h4 : ids.toFinset.card ≤ ids.length := ids.toFinset_card_le
    omega
  refine (create_resolution_iff hrole hne hq).mpr ?_
  rw [← hids, ← hS]
  omega

/-- Counterexample to C4 as stated: with catalog item 1 of merchant 1,
the duplicate request `[(1,1),(1,2)]` resolves to an item set which
exactly equals the requested id set, yet creation fails — and it fails
with HTTP 400 (the status the code uses for unresolved items), never 404. -/
theorem claim_C4_counterexample :
    create_order db_c4 1 req_dup user_con 0 =
        Except.error ⟨400, ErrDetail.itemsNotFoundOrDifferentMerchant⟩
    ∧ ((db_c4.items.filter (fun it =>
          (req_dup.items.map OrderItemCreate.item_id).contains it.id
          && it.merchant_id == 1)).map Item.id).toFinset
        = (req_dup.items.map OrderItemCreate.item_id).toFinset
    ∧ create_order db_c4 1 req_missing user_con 0 =
        Except.error ⟨400, ErrDetail.itemsNotFoundOrDifferentMerchant⟩
    ∧ (400 : Nat) ≠ 404 :=
  ⟨rfl, by decide, rfl, by decide⟩

/-- C4 amended: for a consumer request with a non-empty item list and all
quantities positive, creation fails — with HTTP 400, not 404 — if and only
if the number of catalog items of the target merchant whose id appears in
the request differs from the number of requested pairs; in particular
(catalog primary keys being unique) it fails whenever some requested
item_id does not belong to the target merchant, however many other ids are
valid.  On error nothing is committed, so no Order or OrderItem row is
created. -/
theorem claim_C4_amended_resolution :
    (∀ (db : DB) (mid : Nat) (req : OrderCreate) (u : User) (now : Int),
        u.role = UserRole.consumer →
        req.items ≠ [] →
        req.items.any (fun item => item.quantity ≤ 0) = false →
        (create_order db mid req u now =
            Except.error ⟨400, ErrDetail.itemsNotFoundOrDifferentMerchant⟩
          ↔ (db.items.filter (fun it =>
                (req.items.map OrderItemCreate.item_id).contains it.id
                && it.merchant_id == mid)).length
              ≠ (req.items.map OrderItemCreate.item_id).length))
    ∧ (∀ (db : DB) (mid : Nat) (req : OrderCreate) (u : User) (now : Int),
        u.role = UserRole.consumer →
        req.items ≠ [] →
        req.items.any (fun item => item.quantity ≤ 0) = false →
        (db.items.map Item.id).Nodup →
        (∃ i ∈ req.items, ∀ it ∈ db.items,
            ¬(it.id = i.item_id ∧ it.merchant_id = mid)) →
        create_order db mid req u now =
          Except.error ⟨400, ErrDetail.itemsNotFoundOrDifferentMerchant⟩) := by
  constructor
  · intro db mid req u now hrole hne hq
    exact create_resolution_iff hrole hne hq
  · intro db mid req u now hrole hne hq hpk hmiss
    exact create_missing_item_fails hrole hne hq hpk hmiss

/-- Witness for the amended C4: the request naming the unknown item 9 next
to the valid item 1 is rejected with the 400 resolution error. -/
theorem claim_C4_witness :
    create_order db_c4 1 req_missing user_con 0 =
      Except.error ⟨400, ErrDetail.itemsNotFoundOrDifferentMerchant⟩ :=
  claim_C4_amended_resolution.2 db_c4 1 req_missing user_con 0 rfl (by decide) rfl
    (by decide) ⟨⟨9, 1⟩, by decide, by decide⟩

theorem build_fields_eq {db : DB} {o o' : Order} {b : Bool}
    (h : build_order_read db o' b = build_order_read db o b) :
    o'.consumer_id = o.consumer_id ∧ o'.status = o.status ∧ o'.courier_id = o.courier_id :=
  ⟨congrArg OrderRead.consumer_id h, congrArg OrderRead.status h,
    congrArg OrderRead.courier_id h⟩

theorem list_orders_consumer {db : DB} {u : User} (hrole : u.role = UserRole.consumer) :
    list_orders db u = Except.ok ((db.orders.filter (fun o => o.consumer_id == u.id)).map
      (fun o => build_order_read db o false)) := by
  unfold list_orders
  rw [check_role_cc (Or.inl hrole)]
  simp [hrole]

theorem list_orders_courier {db : DB} {u : User} (hrole : u.role = UserRole.courier) :
    list_orders db u = Except.ok ((db.orders.filter (fun o =>
        (o.status == OrderStatus.ready_for_pickup)
        || (([OrderStatus.in_transit, OrderStatus.delivered].contains o.status)
            && (o.courier_id == some u.id)))).map
      (fun o => build_order_read db o false)) := by
  unfold list_orders
  rw [check_role_cc (Or.inr hrole)]
  simp [hrole]

theorem get_order_consumer {db : DB} {o : Order} {u : User}
    (hrole : u.role = UserRole.consumer)
    (hfind : db.orders.find? (fun o' => o'.id == o.id) = some o) :
    get_order db o.id u =
      if o.consumer_id ≠ u.id then Except.error ⟨403, ErrDetail.notYourOrder⟩
      else Except.ok (build_order_read db o true) := by
  unfold get_order
  rw [check_role_cc (Or.inl hrole)]
  simp only [hfind]
  rw [if_pos hrole]

theorem get_order_courier {db : DB} {o : Order} {u : User}
    (hrole : u.role = UserRole.courier)
    (hfind : db.orders.find? (fun o' => o'.id == o.id) = some o) :
    get_order db o.id u =
      if o.status = OrderStatus.ready_for_pickup then
        Except.ok (build_order_read db o true)
      else if [OrderStatus.in_transit, OrderStatus.delivered].contains o.status then
        if o.courier_id ≠ some u.id then
          Except.error ⟨403, ErrDetail.orderNotAvailableForViewing⟩
        else Except.ok (build_order_read db o true)
      else Except.error ⟨403, ErrDetail.orderNotAvailableForViewing⟩ := by
  unfold get_order
  rw [check_role_cc (Or.inr hrole)]
  simp only [hfind]
  rw [if_neg (by simp [hrole]), if_pos hrole]

theorem get_order_consumer_ok_iff {db : DB} {o : Order} {u : User}
    (hrole : u.role = UserRole.consumer)
    (hfind : db.orders.find? (fun o' => o'.id == o.id) = some o) :
    is_ok (get_order db o.id u) = true ↔ (o.consumer_id == u.id) = true := by
  rw [get_order_consumer hrole hfind]
  by_cases hc : o.consumer_id = u.id <;> simp [is_ok, hc]

theorem get_order_courier_ok_iff {db : DB} {o : Order} {u : User}
    (hrole : u.role = UserRole.courier)
    (hfind : db.orders.find? (fun o' => o'.id == o.id) = some o) :
    is_ok (get_order db o.id u) = true ↔
      ((o.status == OrderStatus.ready_for_pickup)
        || (([OrderStatus.in_transit, OrderStatus.delivered].contains o.status)
            && (o.courier_id == some u.id))) = true := by
  rw [get_order_courier hrole hfind]
  cases hs : o.status <;> by_cases hc : o.courier_id = some u.id <;>
    simp [is_ok, hs, hc]

theorem list_mem_consumer_iff {db : DB} {o : Order} {u : User} (hmem : o ∈ db.orders) :
    (build_order_read db o false ∈ (db.orders.filter
        (fun o' => o'.consumer_id == u.id)).map (fun o' => build_order_read db o' false))
      ↔ (o.consumer_id == u.id) = true := by
  constructor
  · intro hmm
    rcases List.mem_map.mp hmm with ⟨o', ho', heq⟩
    have hfe := build_fields_eq heq
    have hp := (List.mem_filter.mp ho').2
    rw [hfe.1] at hp
    exact hp
  · intro hp
    exact List.mem_map_of_mem _ (List.mem_filter.mpr ⟨hmem, hp⟩)

theorem list_mem_courier_iff {db : DB} {o : Order} {u : User} (hmem : o ∈ db.orders) :
    (build_order_read db o false ∈ (db.orders.filter (fun o' =>
        (o'.status == OrderStatus.ready_for_pickup)
        || (([OrderStatus.in_transit, OrderStatus.delivered].contains o'.status)
            && (o'.courier_id == some u.id)))).map (fun o' => build_order_read db o' false))
      ↔ ((o.status == OrderStatus.ready_for_pickup)
        || (([OrderStatus.in_transit, OrderStatus.delivered].contains o.status)
            && (o.courier_id == some u.id))) = true := by
  constructor
  · intro hmm
    rcases List.mem_map.mp hmm with ⟨o', ho', heq⟩
    have hfe := build_fields_eq heq
    have hp := (List.mem_filter.mp ho').2
    rw [hfe.2.1, hfe.2.2] at hp
    exact hp
  · intro hp
    exact List.mem_map_of_mem _ (List.mem_filter.mpr ⟨hmem, hp⟩)

/-- C5: single-order fetch and the list query apply the same visibility
filter: for a consumer or courier caller and an existing order, the direct
fetch succeeds exactly when the row of the order appears in the list of that caller
result. -/
theorem claim_C5_no_visibility_drift :
    ∀ (db : DB) (u : User) (o : Order) (l : List OrderRead),
      (u.role = UserRole.consumer ∨ u.role = UserRole.courier) →
      o ∈ db.orders →
      db.orders.find? (fun o' => o'.id == o.id) = some o →
      list_orders db u = Except.ok l →
      (is_ok (get_order db o.id u) = true ↔ build_order_read db o false ∈ l) := by
  intro db u o l hrole hmem hfind hl
  rcases hrole with hrole | hrole
  · rw [list_orders_consumer hrole] at hl
    injection hl with hl
    subst hl
    exact (get_order_consumer_ok_iff hrole hfind).trans (list_mem_consumer_iff hmem).symm
  · rw [list_orders_courier hrole] at hl
    injection hl with hl
    subst hl
    exact (get_order_courier_ok_iff hrole hfind).trans (list_mem_courier_iff hmem).symm

/-- Witness for C5: consumer 1 both fetches and lists their pending order. -/
theorem claim_C5_witness :
    is_ok (get_order db_c1 1 user_con) = true ↔
      build_order_read db_c1 order_c1 false ∈ [build_order_read db_c1 order_c1 false] :=
  claim_C5_no_visibility_drift db_c1 user_con order_c1
    [build_order_read db_c1 order_c1 false] (Or.inl rfl) (by decide) rfl rfl

/-- C6: courier visibility — every READY_FOR_PICKUP order is fetchable and
listed for any courier; IN_TRANSIT/DELIVERED orders are visible exactly
when assigned to the caller; orders in any other status yield 403 on direct
fetch and are excluded from the list. -/
theorem claim_C6_courier_visibility :
    ∀ (db : DB) (u : User) (o : Order) (l : List OrderRead),
      u.role = UserRole.courier →
      o ∈ db.orders →
      db.orders.find? (fun o' => o'.id == o.id) = some o →
      list_orders db u = Except.ok l →
      ((o.status = OrderStatus.ready_for_pickup →
          get_order db o.id u = Except.ok (build_order_read db o true) ∧
          build_order_read db o false ∈ l)
        ∧ ((o.status = OrderStatus.in_transit ∨ o.status = OrderStatus.delivered) →
          ((is_ok (get_order db o.id u) = true ↔ o.courier_id = some u.id) ∧
            (build_order_read db o false ∈ l ↔ o.courier_id = some u.id)))
        ∧ ((o.status = OrderStatus.pending ∨ o.status = OrderStatus.accepted ∨
              o.status = OrderStatus.cancelled) →
          get_order db o.id u = Except.error ⟨403, ErrDetail.orderNotAvailableForViewing⟩ ∧
          build_order_read db o false ∉ l)) := by
  intro db u o l hrole hmem hfind hl
  rw [list_orders_courier hrole] at hl
  injection hl with hl
  subst hl
  refine ⟨?_, ?_, ?_⟩
  · intro hs
    constructor
    · rw [get_order_courier hrole hfind, if_pos hs]
    · exact (list_mem_courier_iff hmem).mpr (by simp [hs])
  · intro hs
    constructor
    · rw [get_order_courier_ok_iff hrole hfind]
      rcases hs with h | h <;> simp [h]
    · rw [list_mem_courier_iff hmem]
      rcases hs with h | h <;> simp [h]
  · intro hs
    constructor
    · rw [get_order_courier hrole hfind]
      rcases hs with h | h | h <;> simp [h]
    · intro hmm
      have := (list_mem_courier_iff hmem).mp hmm
      rcases hs with h | h | h <;> simp [h] at this

/-- Witness for C6: courier 10 sees the pool order `order_c3` both by id
and in the list. -/
theorem claim_C6_witness :
    get_order db_c3 1 user_cour = Except.ok (build_order_read db_c3 order_c3 true) ∧
      build_order_read db_c3 order_c3 false ∈ [build_order_read db_c3 order_c3 false] :=
  (claim_C6_courier_visibility db_c3 user_cour order_c3
    [build_order_read db_c3 order_c3 false] rfl (by decide) rfl rfl).1 rfl

theorem trans_from_delivered :
    ∀ (t : OrderStatus) (r : UserRole),
      OrderStatus.can_transition_to OrderStatus.delivered t r = false := by decide

theorem trans_to_delivered :
    ∀ (s t : OrderStatus) (r : UserRole),
      OrderStatus.can_transition_to s t r = true → t = OrderStatus.delivered →
        r = UserRole.courier ∧ s = OrderStatus.in_transit := by decide

theorem create_ok_shape {db : DB} {mid : Nat} {req : OrderCreate} {u : User} {now : Int}
    {db' : DB} {resp : OrderRead}
    (h : create_order db mid req u now = Except.ok (db', resp)) :
    db' = { db with
        orders := db.orders ++ [db_order_row db mid req u now]
        order_items := db.order_items ++
          mk_order_items db.next_order_item_id (db_order_row db mid req u now).id req.items
        next_order_id := db.next_order_id + 1
        next_order_item_id := db.next_order_item_id + req.items.length } ∧
    resp = build_order_read db' (db_order_row db mid req u now) false := by
  unfold create_order at h
  cases hcr : check_role [UserRole.consumer] u with
  | error e =>
      simp only [hcr] at h
      exact absurd h (by simp)
  | ok a =>
      simp only [hcr] at h
      split at h
      · exact absurd h (by simp)
      · split at h
        · exact absurd h (by simp)
        · split at h
          · exact absurd h (by simp)
          · injection h with hpair
            cases hpair
            exact ⟨rfl, rfl⟩

theorem dinv_of_none {o : Order} (h : o.delivered_at = none) : DeliveredInv o :=
  ⟨fun _ => h, fun t ht => by rw [h] at ht; cases ht⟩

/-- C7: delivered_at is null at creation and stays null under every
successful transition while the status is not DELIVERED; the transition to
DELIVERED stamps the response with the current instant, which is at least
the creation instant whenever request times do not precede it; DELIVERED
has no outgoing transitions for any role; and any status update attempted
on a DELIVERED order fails, so delivered_at is never overwritten. -/
theorem claim_C7_delivered_at :
    (∀ (db : DB) (mid : Nat) (req : OrderCreate) (u : User) (now : Int) (db' : DB)
        (r : OrderRead),
        create_order db mid req u now = Except.ok (db', r) →
        ∀ o ∈ db'.orders, o ∉ db.orders →
          o.status = OrderStatus.pending ∧ o.delivered_at = none ∧ o.created_at = now)
    ∧ (∀ (db : DB) (mid oid : Nat) (tgt : OrderStatus) (u : User) (now : Int)
        (order : Order) (db' : DB) (r : OrderRead),
        db.orders.find? (fun o => o.id == oid && o.merchant_id == mid) = some order →
        (∀ o ∈ db.orders, DeliveredInv o) →
        (∀ o ∈ db.orders, o.created_at ≤ now) →
        update_order_status db mid oid tgt u now = Except.ok (db', r) →
        ∀ o ∈ db'.orders, DeliveredInv o)
    ∧ (∀ (db : DB) (mid oid : Nat) (u : User) (now : Int) (order : Order) (db' : DB)
        (r : OrderRead),
        db.orders.find? (fun o => o.id == oid && o.merchant_id == mid) = some order →
        update_order_status db mid oid OrderStatus.delivered u now = Except.ok (db', r) →
        r.delivered_at = some now)
    ∧ (∀ (t : OrderStatus) (r : UserRole),
        OrderStatus.can_transition_to OrderStatus.delivered t r = false)
    ∧ (∀ (db : DB) (mid oid : Nat) (tgt : OrderStatus) (u : User) (now : Int)
        (order : Order),
        db.orders.find? (fun o => o.id == oid && o.merchant_id == mid) = some order →
        order.status = OrderStatus.delivered →
        is_ok (update_order_status db mid oid tgt u now) = false) := by
  refine ⟨?_, ?_, ?_, trans_from_delivered, ?_⟩
  · intro db mid req u now db' r h o hmem hnot
    obtain ⟨hdb, _⟩ := create_ok_shape h
    subst hdb
    rw [List.mem_append] at hmem
    rcases hmem with hmem | hmem
    · exact absurd hmem hnot
    · rcases List.mem_singleton.mp hmem with rfl
      exact ⟨rfl, rfl, rfl⟩
  · intro db mid oid tgt u now order db' r hfind hinv hts hup o ho
    obtain ⟨hcan, _, hdb, _⟩ := upd_ok_shape hfind hup
    subst hdb
    rcases List.mem_map.mp ho with ⟨o0, ho0, heq⟩
    by_cases hb : o0.id = order.id
    case neg =>
      rw [if_neg (by simpa using hb)] at heq
      rw [← heq]
      exact hinv o0 ho0
    case pos =>
      rw [if_pos (by simpa using hb)] at heq
      have hordmem : order ∈ db.orders := List.mem_of_find?_eq_some hfind
      have hstat : order.status ≠ OrderStatus.delivered := by
        intro hs
        rw [hs, trans_from_delivered] at hcan
        cases hcan
      have hdel : order.delivered_at = none := (hinv order hordmem).1 hstat
      have hca : order.created_at ≤ now := hts order hordmem
      rw [← heq]
      by_cases hr : u.role = UserRole.courier
      · by_cases h1 : tgt = OrderStatus.in_transit ∧
            courier_truthy ({ order with status := tgt } : Order).courier_id = false
        · apply dinv_of_none
          simp [courier_touch, hr, h1, hdel]
        · by_cases h2 : tgt = OrderStatus.delivered
          · constructor
            · intro hne
              exfalso
              apply hne
              simp [courier_touch, hr, h1, h2]
            · intro t ht
              have hda : (courier_touch { order with status := tgt } tgt u now).delivered_at
                  = some now := by
                simp [courier_touch, hr, h1, h2]
              rw [hda] at ht
              cases ht
              have hcat : (courier_touch { order with status := tgt } tgt u now).created_at
                  = order.created_at := by
                simp [courier_touch, hr, h1, h2]
              rw [hcat]
              exact hca
          · apply dinv_of_none
            simp [courier_touch, hr, h1, h2, hdel]
      · have h2 : tgt ≠ OrderStatus.delivered := by
          intro h2
          exact hr (trans_to_delivered order.status tgt u.role hcan h2).1
        apply dinv_of_none
        simp [courier_touch, hr, hdel]
  · intro db mid oid u now order db' r hfind hup
    obtain ⟨hcan, _, _, hresp⟩ := upd_ok_shape hfind hup
    have hrc : u.role = UserRole.courier :=
      (trans_to_delivered order.status OrderStatus.delivered u.role hcan rfl).1
    rw [hresp]
    show (courier_touch { order with status := OrderStatus.delivered }
        OrderStatus.delivered u now).delivered_at = some now
    simp [courier_touch, hrc]
  · intro db mid oid tgt u now order hfind hdelivered
    cases hres : update_order_status db mid oid tgt u now with
    | error e => rfl
    | ok p =>
        exfalso
        rcases p with ⟨db', r⟩
        obtain ⟨hcan, _, _, _⟩ := upd_ok_shape hfind hres
        rw [hdelivered, trans_from_delivered] at hcan
        cases hcan

/-- Witness for C7: a second DELIVERED request on the already-delivered
`order_dlv` does not succeed. -/
theorem claim_C7_witness :
    is_ok (update_order_status db_c7 1 1 OrderStatus.delivered user_cour 7) = false :=
  claim_C7_delivered_at.2.2.2.2 db_c7 1 1 OrderStatus.delivered user_cour 7 order_dlv
    rfl rfl

theorem mk_order_items_order_id :
    ∀ (l : List OrderItemCreate) (n oid : Nat),
      ∀ oi ∈ mk_order_items n oid l, oi.order_id = oid := by
  intro l
  induction l with
  | nil =>
      intro n oid oi h
      cases h
  | cons i rest ih =>
      intro n oid oi h
      rcases List.mem_cons.mp h with h | h
      · rw [h]
      · exact ih (n + 1) oid oi h

theorem mk_order_items_pairs :
    ∀ (l : List OrderItemCreate) (n oid : Nat),
      (mk_order_items n oid l).map (fun oi => (oi.item_id, oi.quantity))
        = l.map (fun i => (i.item_id, i.quantity)) := by
  intro l
  induction l with
  | nil => intro n oid; rfl
  | cons i rest ih =>
      intro n oid
      simp [mk_order_items, ih]

/-- C8: a successful consumer creation appends exactly one PENDING order
owned by the caller against the given merchant, stamped with the current
instant and no courier; inserts one `order_item` row per requested pair
with the requested item id and quantity; and the response repeats those
fields enriched with the merchant name and location and the computed
total. -/
theorem claim_C8_create_success :
    ∀ (db : DB) (mid : Nat) (req : OrderCreate) (u : User) (now : Int) (db' : DB)
      (resp : OrderRead) (m : Merchant),
      db.merchants.find? (fun mm => mm.id == mid) = some m →
      (∀ oi ∈ db.order_items, oi.order_id ≠ db.next_order_id) →
      create_order db mid req u now = Except.ok (db', resp) →
      (db'.orders = db.orders ++ [db_order_row db mid req u now]
        ∧ (db_order_row db mid req u now).status = OrderStatus.pending
        ∧ (db_order_row db mid req u now).consumer_id = u.id
        ∧ (db_order_row db mid req u now).merchant_id = mid
        ∧ (db_order_row db mid req u now).created_at = now
        ∧ (db_order_row db mid req u now).courier_id = none
        ∧ (order_items_of db' db.next_order_id).map (fun oi => (oi.item_id, oi.quantity))
            = req.items.map (fun i => (i.item_id, i.quantity))
        ∧ resp.status = OrderStatus.pending
        ∧ resp.consumer_id = u.id
        ∧ resp.merchant_id = mid
        ∧ resp.created_at = now
        ∧ resp.courier_id = none
        ∧ resp.merchant_name = m.name
        ∧ resp.merchant_location = m.location
        ∧ resp.total = order_total db' db.next_order_id) := by
  intro db mid req u now db' resp m hm hold hc
  obtain ⟨hdb, hresp⟩ := create_ok_shape hc
  have hitems : order_items_of db' db.next_order_id
      = mk_order_items db.next_order_item_id db.next_order_id req.items := by
    subst hdb
    show (db.order_items ++ mk_order_items db.next_order_item_id
        (db_order_row db mid req u now).id req.items).filter
        (fun oi => oi.order_id == db.next_order_id)
      = mk_order_items db.next_order_item_id db.next_order_id req.items
    rw [List.filter_append]
    have h1 : db.order_items.filter (fun oi => oi.order_id == db.next_order_id) = [] := by
      rw [List.filter_eq_nil_iff]
      intro oi hoi
      simp [hold oi hoi]
    have h2 : (mk_order_items db.next_order_item_id (db_order_row db mid req u now).id
          req.items).filter (fun oi => oi.order_id == db.next_order_id)
        = mk_order_items db.next_order_item_id (db_order_row db mid req u now).id
            req.items := by
      rw [List.filter_eq_self]
      intro oi hoi
      have hoid := mk_order_items_order_id req.items db.next_order_item_id
        (db_order_row db mid req u now).id oi hoi
      simp [hoid, db_order_row]
    rw [h1, h2]
    rfl
  have hmf : merchant_of db' (db_order_row db mid req u now) = some m := by
    rw [hdb]
    exact hm
  refine ⟨?_, rfl, rfl, rfl, rfl, rfl, ?_, ?_, ?_, ?_, ?_, ?_, ?_, ?_, ?_⟩
  · rw [hdb]
  · rw [hitems, mk_order_items_pairs]
  · rw [hresp]; rfl
  · rw [hresp]; rfl
  · rw [hresp]; rfl
  · rw [hresp]; rfl
  · rw [hresp]; rfl
  · rw [hresp]
    show ((merchant_of db' (db_order_row db mid req u now)).map Merchant.name).getD ""
      = m.name
    rw [hmf]
    rfl
  · rw [hresp]
    show ((merchant_of db' (db_order_row db mid req u now)).map Merchant.location).getD ""
      = m.location
    rw [hmf]
    rfl
  · rw [hresp]; rfl

/-- Witness for C8: creating the two-line order in `db_c8` inserts exactly
the requested (item_id, quantity) pairs. -/
theorem claim_C8_witness :
    (order_items_of db_c8' db_c8.next_order_id).map (fun oi => (oi.item_id, oi.quantity))
      = req_c8.items.map (fun i => (i.item_id, i.quantity)) :=
  (claim_C8_create_success db_c8 1 req_c8 user_con 0 db_c8' resp_c8 merchant1
    rfl (by decide) rfl).2.2.2.2.2.2.1

theorem get_order_total {db : DB} {oid : Nat} {u : User} {resp : OrderRead}
    (h : get_order db oid u = Except.ok resp) :
    resp.total = order_total db resp.id := by
  unfold get_order at h
  cases hcr : check_role [UserRole.consumer, UserRole.courier] u with
  | error e =>
      simp only [hcr] at h
      exact absurd h (by simp)
  | ok a =>
      simp only [hcr] at h
      cases hfind : db.orders.find? (fun o => o.id == oid) with
      | none =>
          simp only [hfind] at h
          exact absurd h (by simp)
      | some order =>
          simp only [hfind] at h
          repeat' split at h
          all_goals first
            | (injection h with h2; subst h2; rfl)
            | (injection h)

theorem list_orders_total {db : DB} {u : User} {l : List OrderRead}
    (h : list_orders db u = Except.ok l) :
    ∀ r ∈ l, r.total = order_total db r.id := by
  unfold list_orders at h
  cases hcr : check_role [UserRole.consumer, UserRole.courier] u with
  | error e =>
      simp only [hcr] at h
      exact absurd h (by simp)
  | ok a =>
      simp only [hcr] at h
      injection h with h2
      subst h2
      intro r hr
      rcases List.mem_map.mp hr with ⟨o, ho, heq⟩
      subst heq
      rfl

/-- C9: every read, list and create response carries a total equal to the
sum over the line items of the order of quantity times the referenced catalog
price in the database as it stands at read time (never persisted on the
order row, which has no such column); in particular an order with line
items (price 2.50, qty 2) and (price 1.00, qty 3) totals 8.00. -/
theorem claim_C9_total_current_price :
    (∀ (db : DB) (oid : Nat) (u : User) (resp : OrderRead),
        get_order db oid u = Except.ok resp → resp.total = order_total db resp.id)
    ∧ (∀ (db : DB) (u : User) (l : List OrderRead),
        list_orders db u = Except.ok l → ∀ r ∈ l, r.total = order_total db r.id)
    ∧ (∀ (db : DB) (mid : Nat) (req : OrderCreate) (u : User) (now : Int) (db' : DB)
        (resp : OrderRead),
        create_order db mid req u now = Except.ok (db', resp) →
        resp.total = order_total db' resp.id)
    ∧ (∀ (db : DB) (oid : Nat),
        order_total db oid = ((order_items_of db oid).map
          (fun oi => (oi.quantity : Rat) * item_price db oi.item_id)).sum)
    ∧ order_total db_c9 1 = 8 := by
  refine ⟨?_, ?_, ?_, fun db oid => rfl, ?_⟩
  · intro db oid u resp h
    exact get_order_total h
  · intro db u l h
    exact list_orders_total h
  · intro db mid req u now db' resp h
    obtain ⟨_, hresp⟩ := create_ok_shape h
    rw [hresp]
    rfl
  · norm_num [order_total, order_items_of, item_price, db_c9, item1, item2]

/-- Witness for C9: the fetched response for the order of `db_c9` carries
the computed total. -/
theorem claim_C9_witness : resp_c9.total = order_total db_c9 resp_c9.id :=
  claim_C9_total_current_price.1 db_c9 1 user_con resp_c9 rfl

end Takeout
